import Mathlib

/-!
Verification development for the NexusGuard remediation core.

We give a shallow embedding of the two dense source files:
`src/agents/noc_monitoring_crew.py` (anomaly extraction, playbook catalog
search, learned-playbook persistence, LLM consultation) and
`src/backend/app/services/ansible_service.py` (the execution engine),
and settle the specification claims against it.

Modelling conventions:
- Python dicts appearing as records in the JSON output are modelled as
  ordered association lists `List (String × JVal)`, mirroring the literal
  key order of the source, so "byte-identical output" questions reduce to
  equality of these structures.
- `datetime.utcnow()` is an explicit input (`now`), since the model is pure.
- Machine reals (Python floats) are modelled by `ℚ`; the claims under test
  only compare rates against thresholds, never exercise float rounding.
- Environment-configurable thresholds are an explicit `Thresholds` record.
-/

/-- JSON/JSON-like scalar and composite values occurring in the
`analyze_transactions` output. -/
inductive JVal where
  | jnull : JVal
  | jstr : String → JVal
  | jint : Int → JVal
  | jrat : ℚ → JVal
  | jbool : Bool → JVal
  deriving DecidableEq, Repr

/-- An anomaly record: an ordered dict, as built literally in
`analyze_transactions` (src/agents/noc_monitoring_crew.py). -/
abbrev Anom := List (String × JVal)

/-- A transaction of the metrics snapshot.  Fields the Python code reads
with `txn.get(...)` are `Option`s; `id` is read with `txn["id"]`, so a
well-formed transaction always carries it. -/
structure Txn where
  id : String
  latency_ms : Option Int := none
  status : Option String := none
  error : Option String := none
  service : Option String := none
  region : Option String := none
  anomaly_type : Option String := none
  expected_hash : Option String := none
  hash : Option String := none
  deriving DecidableEq, Repr

/-- A server entry of `infrastructure.servers`. -/
structure Server where
  name : String
  cpu : Option Int := none
  memory : Option Int := none
  deriving DecidableEq, Repr

/-- `network.layer7` HTTP status counters; `layer7.get(k, 0)` collapses a
missing counter to 0, so plain `Nat` fields model the access pattern. -/
structure Layer7 where
  http_2xx : Nat := 0
  http_4xx : Nat := 0
  http_5xx : Nat := 0
  deriving DecidableEq, Repr

/-- The already-deserialized metrics snapshot (`data` after `json.loads`). -/
structure Snapshot where
  transactions : List Txn := []
  servers : List Server := []
  layer7 : Layer7 := {}
  deriving DecidableEq, Repr

/-- Environment-configured thresholds (`THRESHOLD_*` in the source;
defaults 1000 ms, 0.05, 85, 90). -/
structure Thresholds where
  latency_ms : Int := 1000
  error_rate : ℚ := 5 / 100
  cpu : Int := 85
  memory : Int := 90
  deriving DecidableEq, Repr

/-- Python truthiness of an `Option String` (`if txn.get("anomaly_type")`):
present and non-empty. -/
def optStrTruthy : Option String → Bool
  | some s => s ≠ ""
  | none => false

/-- A string-or-null JSON value, as `txn.get(k)` yields `None` for a
missing key. -/
def jOptStr : Option String → JVal
  | some s => .jstr s
  | none => .jnull

/-- The high-latency anomaly dict (source lines 112-119). -/
def latencyAnom (txn : Txn) : Anom :=
  [("type", .jstr "high_latency"),
   ("severity", .jstr (if txn.latency_ms.getD 0 < 5000 then "warning" else "critical")),
   ("transaction_id", .jstr txn.id),
   ("latency_ms", .jint (txn.latency_ms.getD 0)),
   ("service", .jstr (txn.service.getD "unknown")),
   ("region", .jstr (txn.region.getD "unknown"))]

/-- The failed-transaction anomaly dict (source lines 122-131). -/
def failureAnom (txn : Txn) : Anom :=
  [("type", .jstr (txn.error.getD "unknown_failure")),
   ("severity", .jstr (if optStrTruthy txn.anomaly_type then "critical" else "high")),
   ("transaction_id", .jstr txn.id),
   ("service", .jstr (txn.service.getD "unknown")),
   ("region", .jstr (txn.region.getD "unknown")),
   ("anomaly_type", jOptStr txn.anomaly_type)]

/-- The hash-mismatch anomaly dict (source lines 134-143). -/
def hashAnom (txn : Txn) : Anom :=
  [("type", .jstr "hash_mismatch"),
   ("severity", .jstr "critical"),
   ("transaction_id", .jstr txn.id),
   ("expected_hash", jOptStr txn.expected_hash),
   ("actual_hash", jOptStr txn.hash),
   ("service", .jstr (txn.service.getD "unknown")),
   ("region", .jstr (txn.region.getD "unknown"))]

/-- Anomalies contributed by one transaction, in the source's check order:
latency, then failure, then hash mismatch. -/
def txnAnomalies (th : Thresholds) (txn : Txn) : List Anom :=
  (if th.latency_ms < txn.latency_ms.getD 0 then [latencyAnom txn] else [])
    ++ (if txn.status = some "failed" then [failureAnom txn] else [])
    ++ (if txn.error = some "hash_mismatch" then [hashAnom txn] else [])

/-- The high-cpu anomaly dict (source lines 149-154). -/
def cpuAnom (srv : Server) : Anom :=
  [("type", .jstr "high_cpu"),
   ("severity", .jstr (if 95 < srv.cpu.getD 0 then "critical" else "warning")),
   ("server", .jstr srv.name),
   ("cpu", .jint (srv.cpu.getD 0))]

/-- The high-memory anomaly dict (source lines 156-161). -/
def memAnom (srv : Server) : Anom :=
  [("type", .jstr "high_memory"),
   ("severity", .jstr (if 95 < srv.memory.getD 0 then "critical" else "warning")),
   ("server", .jstr srv.name),
   ("memory", .jint (srv.memory.getD 0))]

/-- Anomalies contributed by one server, cpu check then memory check. -/
def serverAnomalies (th : Thresholds) (srv : Server) : List Anom :=
  (if th.cpu < srv.cpu.getD 0 then [cpuAnom srv] else [])
    ++ (if th.memory < srv.memory.getD 0 then [memAnom srv] else [])

/-- Python's `round(x, 2)` on the percentage, modelled with nearest-integer
rounding on `ℚ` (float half-to-even artifacts are not observable in any
claim under test). -/
def round2 (q : ℚ) : ℚ := (round (q * 100) : ℤ) / 100

/-- The high-error-rate anomaly dict (source lines 170-175). -/
def netAnom (l7 : Layer7) (rate : ℚ) : Anom :=
  [("type", .jstr "high_error_rate"),
   ("severity", .jstr (if 1 / 10 < rate then "critical" else "warning")),
   ("error_rate", .jrat (round2 (rate * 100))),
   ("http_5xx", .jint l7.http_5xx)]

/-- Network check (source lines 164-175): the error rate is only ever
formed under the `total_requests > 0` guard. -/
def networkAnomalies (th : Thresholds) (l7 : Layer7) : List Anom :=
  let total := l7.http_2xx + l7.http_4xx + l7.http_5xx
  if 0 < total then
    let rate : ℚ := (l7.http_5xx : ℚ) / (total : ℚ)
    if th.error_rate < rate then [netAnom l7 rate] else []
  else []

/-- The full result dict returned by `analyze_transactions`. -/
structure AnalyzeOutput where
  total_anomalies : Nat
  anomalies : List Anom
  timestamp : String
  deriving DecidableEq, Repr

/-- `analyze_transactions` on an already-parsed snapshot
(src/agents/noc_monitoring_crew.py lines 91-181).  `now` stands for the
`datetime.utcnow().isoformat()` call embedded in the returned JSON. -/
def analyze_transactions (th : Thresholds) (data : Snapshot) (now : String) : AnalyzeOutput :=
  let anomalies :=
    (data.transactions.flatMap (txnAnomalies th))
      ++ (data.servers.flatMap (serverAnomalies th))
      ++ networkAnomalies th data.layer7
  { total_anomalies := anomalies.length, anomalies := anomalies, timestamp := now }

/-!
## Execution engine (src/backend/app/services/ansible_service.py)

`AnsibleService` keeps a dict `self._executions : Dict[str, PlaybookExecution]`,
modelled as an association list keyed by execution id.  `datetime.utcnow()`
timestamps are abstract `Nat` instants supplied by the caller.
-/

/-- `PlaybookExecutionStatus` (app/models/schemas.py). -/
inductive ExecStatus where
  | pending
  | running
  | success
  | failed
  | cancelled
  deriving DecidableEq, Repr

/-- Terminal statuses of the execution state machine. -/
def ExecStatus.isTerminal : ExecStatus → Bool
  | .success => true
  | .failed => true
  | .cancelled => true
  | _ => false

/-- A `PlaybookExecution` record. -/
structure Execution where
  id : String
  playbook_id : String
  incident_id : Option String
  status : ExecStatus
  started_at : Nat
  completed_at : Option Nat
  executed_by : String
  parameters : List (String × String)
  target_hosts : List String
  dry_run : Bool
  output : Option String := none
  error : Option String := none
  deriving DecidableEq, Repr

/-- The shared execution table `self._executions`. -/
abbrev ExecMap := List (String × Execution)

/-- Dict write `m[k] = v`: replace the binding in place (keys are unique in
a Python dict, and updating keeps insertion order) or append a new one. -/
def dictSet : ExecMap → String → Execution → ExecMap
  | [], k, v => [(k, v)]
  | p :: rest, k, v =>
      if p.1 = k then (k, v) :: rest else p :: dictSet rest k v

/-- `get_execution` (lines 407-409): plain dict lookup. -/
def get_execution (m : ExecMap) (eid : String) : Option Execution :=
  (m.find? (fun p => p.1 = eid)).map (·.2)

/-- A `PlaybookExecutionRequest`. -/
structure ExecRequest where
  playbook_id : String
  incident_id : Option String := none
  parameters : Option (List (String × String)) := none
  target_hosts : Option (List String) := none
  dry_run : Bool := false
  deriving DecidableEq, Repr

/-- Python `x or dflt` for an optional list: `None` and `[]` both fall back. -/
def pyOrList (x : Option (List α)) (dflt : List α) : List α :=
  match x with
  | none => dflt
  | some [] => dflt
  | some l => l

/-- `execute_playbook` (lines 307-340) up to its return: validates the
playbook id against the catalog (`get_playbook`; `ValueError` → `none`),
creates the Pending execution record, stores it in `self._executions`, and
schedules `_run_playbook` as a background task — which has not run by the
time `execute_playbook` returns, so the stored status is still Pending.
Returns the execution together with the updated table. -/
def execute_playbook (catalog : List String) (m : ExecMap) (execution_id : String)
    (req : ExecRequest) (executed_by : String) (now : Nat) :
    Option (Execution × ExecMap) :=
  if req.playbook_id ∈ catalog then
    let execution : Execution :=
      { id := execution_id
        playbook_id := req.playbook_id
        incident_id := req.incident_id
        status := .pending
        started_at := now
        completed_at := none
        executed_by := executed_by
        parameters := (req.parameters.getD [])
        target_hosts := pyOrList req.target_hosts ["all"]
        dry_run := req.dry_run }
    some (execution, dictSet m execution_id execution)
  else none

/-- `cancel_execution` (lines 431-443): true only when the execution exists
and is Running, in which case the status flips to Cancelled and
`completed_at` is stamped; otherwise the table is untouched. -/
def cancel_execution (m : ExecMap) (eid : String) (now : Nat) : Bool × ExecMap :=
  match get_execution m eid with
  | none => (false, m)
  | some e =>
    if e.status = .running then
      (true, dictSet m eid { e with status := .cancelled, completed_at := some now })
    else (false, m)

/-!
The background coroutine `_run_playbook` (lines 342-405) mutates the stored
execution at its scheduler interleaving points.  Its effect on the record
is captured by three events: the initial dispatch to Running (line 345),
the resumption after `process.communicate()` (lines 384-397), and the
exception handler (lines 399-403).  Crucially, the post-`communicate`
code assigns `execution.status` unconditionally — it never re-checks
whether a concurrent `cancel_execution` already moved the record to
Cancelled.
-/

/-- One scheduler-visible event acting on an execution record. -/
inductive RunnerEvent where
  /-- line 345: `execution.status = RUNNING`. -/
  | dispatch : RunnerEvent
  /-- `cancel_execution` interleaved from another task, at instant `now`. -/
  | cancelAt (now : Nat) : RunnerEvent
  /-- lines 384-397: the spawned process exited with `code`, producing
  `out`/`err`, at instant `now`. -/
  | procExit (code : Int) (out err : String) (now : Nat) : RunnerEvent
  /-- lines 399-403: launching or awaiting the process raised `msg`. -/
  | launchError (msg : String) (now : Nat) : RunnerEvent
  deriving DecidableEq, Repr

/-- The effect of one event on the execution record, transcribed from
`_run_playbook` and `cancel_execution`. -/
def applyEvent (e : Execution) : RunnerEvent → Execution
  | .dispatch => { e with status := .running }
  | .cancelAt now =>
      if e.status = .running then { e with status := .cancelled, completed_at := some now }
      else e
  | .procExit code out err now =>
      let e := { e with completed_at := some now, output := some out }
      if code = 0 then { e with status := .success }
      else { e with status := .failed, error := some err }
  | .launchError msg now =>
      { e with status := .failed, completed_at := some now, error := some msg }

/-- Folding a trace of events over an execution record. -/
def runTrace (e : Execution) (evs : List RunnerEvent) : Execution :=
  evs.foldl applyEvent e

/-- A freshly submitted execution record (status Pending), as built by
`execute_playbook` for playbook `pid` at instant `t`. -/
def mkPending (eid pid by_ : String) (t : Nat) : Execution :=
  { id := eid, playbook_id := pid, incident_id := none, status := .pending,
    started_at := t, completed_at := none, executed_by := by_,
    parameters := [], target_hosts := ["all"], dry_run := false }

/-!
## Oracle client (`consult_llm`, src/agents/noc_monitoring_crew.py 248-321)

Only the response-extraction logic (lines 298-318) is state; the HTTP call
and `json.loads` are external, so the JSON parser is a parameter of the
model.  A reply that parses must be a JSON object (the parsed slice starts
with a brace), so the parser yields an association-list object on success.
-/

/-- Python `s.find(c)`: index of the first occurrence, `-1` if absent. -/
def pyFind (s : String) (c : Char) : Int :=
  match s.toList.findIdx? (· = c) with
  | some i => (i : Int)
  | none => -1

/-- Python `s.rfind(c)`: index of the last occurrence, `-1` if absent. -/
def pyRFind (s : String) (c : Char) : Int :=
  match s.toList.reverse.findIdx? (· = c) with
  | some i => (s.length : Int) - 1 - (i : Int)
  | none => -1

/-- Python slice `s[a:b]` for non-negative bounds. -/
def pySlice (s : String) (a b : Nat) : String :=
  String.mk ((s.toList.drop a).take (b - a))

/-- Result of `consult_llm` after a successful transport call: either the
parsed plan object (with `source`/`model` keys appended, lines 308-310) or
the raw-response fallback dict (lines 314-318). -/
inductive ConsultResult where
  | parsed (plan : List (String × JVal)) : ConsultResult
  | rawResponse (text : String) : ConsultResult
  deriving DecidableEq, Repr

/-- The model name recorded in both result shapes. -/
def modelName : String := "claude-sonnet-4-5-20250929"

/-- `consult_llm` response extraction (lines 298-318): find the first
`\x7b` and last `\x7d`, parse the enclosed slice with `parseJson`
(`json.loads`; `none` models `JSONDecodeError`), and fall back to the
raw-response dict when the pair is missing or parsing fails. -/
def consult_llm (parseJson : String → Option (List (String × JVal)))
    (response_text : String) : ConsultResult :=
  let start := pyFind response_text '\x7b'
  let stop := pyRFind response_text '\x7d' + 1
  if start ≠ -1 ∧ start < stop then
    match parseJson (pySlice response_text start.toNat stop.toNat) with
    | some recommendation =>
        .parsed (recommendation
          ++ [("source", .jstr "llm_generated"), ("model", .jstr modelName)])
    | none => .rawResponse response_text
  else .rawResponse response_text

/-!
## Playbook catalog and learner (src/agents/noc_monitoring_crew.py 184-376)

The learned store is a set of YAML files; `yaml.safe_load` yields a Python
value modelled by `Y`.  `search_playbooks` only guards the load with
`except yaml.YAMLError`, so any later `.get` on a non-dict document raises
`AttributeError` and aborts the search — the model therefore runs the scan
in `Except PyErr`.
-/

/-- A Python value as produced by `yaml.safe_load` / `json.loads`. -/
inductive Y where
  | pynone : Y
  | pystr (v : String) : Y
  | pyint (n : Int) : Y
  | pybool (v : Bool) : Y
  | pylist (xs : List Y) : Y
  | pydict (kvs : List (String × Y)) : Y
  deriving Repr

/-- Exceptions observable from the catalog scan. -/
inductive PyErr where
  /-- `AttributeError`: `.get` called on a value that is not a dict. -/
  | attributeError : PyErr
  deriving DecidableEq, Repr

/-- Python truthiness of a loaded document (`if pb_content`). -/
def yTruthy : Y → Bool
  | .pynone => false
  | .pystr v => v ≠ ""
  | .pyint n => n ≠ 0
  | .pybool b => b
  | .pylist xs => !xs.isEmpty
  | .pydict kvs => !kvs.isEmpty

/-- Python `v.get(k, dflt)`: defined for dicts, `AttributeError` otherwise. -/
def yGet (v : Y) (k : String) (dflt : Y) : Except PyErr Y :=
  match v with
  | .pydict kvs => .ok ((kvs.find? (fun p => p.1 = k)).map (·.2) |>.getD dflt)
  | _ => .error .attributeError

mutual

/-- Python `repr` of a value (string quoting, `True`/`None` spellings);
escape subtleties inside strings are irrelevant to the tags under test. -/
def pyRepr : Y → String
  | .pynone => "None"
  | .pystr v => "\x27" ++ v ++ "\x27"
  | .pyint n => toString n
  | .pybool true => "True"
  | .pybool false => "False"
  | .pylist xs => "[" ++ pyReprList xs ++ "]"
  | .pydict kvs => "\x7b" ++ pyReprDict kvs ++ "\x7d"

/-- Comma-joined element reprs of a list. -/
def pyReprList : List Y → String
  | [] => ""
  | [x] => pyRepr x
  | x :: y :: rest => pyRepr x ++ ", " ++ pyReprList (y :: rest)

/-- Comma-joined `key: value` reprs of a dict. -/
def pyReprDict : List (String × Y) → String
  | [] => ""
  | [(k, v)] => "\x27" ++ k ++ "\x27: " ++ pyRepr v
  | (k, v) :: q :: rest =>
      "\x27" ++ k ++ "\x27: " ++ pyRepr v ++ ", " ++ pyReprDict (q :: rest)

end

/-- Python `str`, as applied to the `target_anomalies` value (line 231). -/
def pyStr : Y → String
  | .pystr v => v
  | v => pyRepr v

/-- Python `needle in haystack` on strings: substring containment. -/
def pyInStr (needle haystack : String) : Bool :=
  (List.range (haystack.length + 1)).any
    (fun i => needle.toList.isPrefixOf (haystack.toList.drop i))

/-- One file of the learned store: stem name and the outcome of
`yaml.safe_load` (`.error` models `yaml.YAMLError` on malformed YAML). -/
structure LearnedFile where
  name : String
  content : Except Unit Y

/-- A catalog search hit (name/source/confidence; the path is the name). -/
structure Candidate where
  name : String
  source : String
  confidence : ℚ
  deriving DecidableEq, Repr

/-- The static anomaly-type → playbook table (lines 196-210). -/
def playbook_mapping : List (String × List String) :=
  [("high_latency", ["high_error_rate_investigation", "collect_diagnostics"]),
   ("timeout", ["network_connectivity_test", "restart_application"]),
   ("connection_refused", ["network_connectivity_test", "restart_application"]),
   ("hash_mismatch", ["collect_diagnostics", "blockchain_node_recovery"]),
   ("consensus_failure", ["blockchain_node_recovery"]),
   ("vault_sealed", ["collect_diagnostics"]),
   ("ddos_detected", ["firewall_emergency_block"]),
   ("replication_broken", ["database_failover"]),
   ("high_cpu", ["memory_pressure_relief", "collect_diagnostics"]),
   ("high_memory", ["memory_pressure_relief"]),
   ("high_error_rate", ["high_error_rate_investigation", "restart_application"]),
   ("jwt_validation_failed", ["restart_application", "collect_diagnostics"]),
   ("service_degradation", ["restart_application", "load_balancer_drain"])]

/-- Scan of the learned store (lines 227-239): YAML errors are skipped by
`continue`, but `.get` on a truthy non-dict document raises. -/
def scanLearned (anomaly_type : String) : List LearnedFile → Except PyErr (List Candidate)
  | [] => .ok []
  | f :: rest =>
      match f.content with
      | .error _ => scanLearned anomaly_type rest
      | .ok pb_content =>
          if yTruthy pb_content then
            match yGet pb_content "vars" (.pydict []) with
            | .error e => .error e
            | .ok vars =>
                match yGet vars "target_anomalies" (.pylist []) with
                | .error e => .error e
                | .ok tgts =>
                    if pyInStr anomaly_type (pyStr tgts) then
                      match scanLearned anomaly_type rest with
                      | .error e => .error e
                      | .ok ms => .ok (⟨f.name, "learned", 8 / 10⟩ :: ms)
                    else scanLearned anomaly_type rest
          else scanLearned anomaly_type rest

/-- The dict returned by `search_playbooks` (lines 241-245). -/
structure SearchResult where
  anomaly_type : String
  matching_playbooks : List Candidate
  playbook_found : Bool
  deriving DecidableEq, Repr

/-- `search_playbooks` (lines 184-245).  `pbExists` models
`(PLAYBOOKS_PATH / name.yml).exists()`, re-checked per call; `learned` is
the current learned store.  An `AttributeError` from the scan propagates
out of the whole search. -/
def search_playbooks (pbExists : String → Bool) (learned : List LearnedFile)
    (anomaly_type : String) : Except PyErr SearchResult :=
  let names := ((playbook_mapping.find? (fun p => p.1 = anomaly_type)).map (·.2)).getD []
  let builtin := (names.filter pbExists).map
    (fun n => (⟨n, "existing", 9 / 10⟩ : Candidate))
  match scanLearned anomaly_type learned with
  | .error e => .error e
  | .ok ms =>
      let matching := builtin ++ ms
      .ok ⟨anomaly_type, matching, !matching.isEmpty⟩

/-!
## Procedure learner (`save_learned_playbook`, lines 324-376)
-/

/-- One step of an Oracle remediation plan, with the `.get`-accessed JSON
fields optional. -/
structure PlanStep where
  step : Option Int := none
  action : Option String := none
  command : Option String := none
  is_destructive : Option Bool := none
  deriving DecidableEq, Repr

/-- The parsed Oracle remediation object, with the fields
`save_learned_playbook` reads. -/
structure RemPlan where
  root_cause : Option String := none
  requires_approval : Option Bool := none
  remediation_steps : List PlanStep := []
  deriving DecidableEq, Repr

/-- One Ansible task built from a plan step (lines 343-351); destructive
steps get the `approve_destructive` guard. -/
def mkTask (s : PlanStep) : Y :=
  .pydict (
    [("name", .pystr (match s.action with
        | some a => a
        | none => "Step " ++ (match s.step with | some n => toString n | none => "?"))),
     ("shell", .pystr (s.command.getD "echo \x27No command specified\x27")),
     ("register", .pystr ("step_" ++
        (match s.step with | some n => toString n | none => "0") ++ "_result"))]
    ++ (if s.is_destructive = some true then
          [("when", .pystr "approve_destructive | default(false)")]
        else []))

/-- The full playbook document written by the learner (lines 353-364):
note it is a top-level YAML LIST containing one play dict. -/
def learnedPlaybookContent (playbook_name : String) (r : RemPlan) (now : String) : Y :=
  .pylist [.pydict
    [("name", .pystr ("Learned Playbook: " ++ playbook_name)),
     ("hosts", .pystr "\x7b\x7b target_hosts | default(\x27all\x27) \x7d\x7d"),
     ("become", .pybool true),
     ("vars", .pydict
        [("target_anomalies", .pylist [.pystr (r.root_cause.getD "unknown")]),
         ("learned_from", .pystr "llm"),
         ("created_at", .pystr now),
         ("requires_approval", .pybool (r.requires_approval.getD true))]),
     ("tasks", .pylist (r.remediation_steps.map mkTask))]]

/-- Store write for `name.yml`, last-write-wins keyed by the stem name
(overwrite in place, append if new). -/
def storePut : List LearnedFile → String → Except Unit Y → List LearnedFile
  | [], name, content => [⟨name, content⟩]
  | f :: rest, name, content =>
      if f.name = name then ⟨name, content⟩ :: rest
      else f :: storePut rest name content

/-- `save_learned_playbook` (lines 324-376) on an already-parsed
remediation object: writes the converted playbook into the learned store
and reports `task_count` (second component). -/
def save_learned_playbook (store : List LearnedFile) (playbook_name : String)
    (r : RemPlan) (now : String) : List LearnedFile × Nat :=
  let tasks := r.remediation_steps.map mkTask
  (storePut store playbook_name (.ok (learnedPlaybookContent playbook_name r now)),
   tasks.length)

/-!
## Theorems
-/

theorem get_execution_dictSet (m : ExecMap) (k : String) (v : Execution) :
    get_execution (dictSet m k v) k = some v := by
  induction m with
  | nil => simp [dictSet, get_execution]
  | cons p rest ih =>
    by_cases hp : p.1 = k
    · simp [dictSet, get_execution, hp]
    · simp [dictSet, get_execution, hp] at ih ⊢
      exact ih

theorem get_execution_dictSet_ne (m : ExecMap) (k k' : String) (v : Execution)
    (h : k' ≠ k) : get_execution (dictSet m k v) k' = get_execution m k' := by
  induction m with
  | nil => simp [dictSet, get_execution, Ne.symm h]
  | cons p rest ih =>
    by_cases hp : p.1 = k
    · simp [dictSet, get_execution, hp, Ne.symm h, h]
    · by_cases hp' : p.1 = k'
      · simp [dictSet, get_execution, hp, hp', h]
      · simp [dictSet, get_execution, hp, hp', h] at ih ⊢
        exact ih

theorem get_execution_dictSet_isSome (m : ExecMap) (k k' : String) (v : Execution)
    (h : (get_execution m k').isSome) :
    (get_execution (dictSet m k v) k').isSome := by
  by_cases hk : k' = k
  · subst hk; simp [get_execution_dictSet]
  · rwa [get_execution_dictSet_ne m k k' v hk]

/-- C1.  The claim states that a terminal Execution status never changes
again — in particular that an Execution cancelled while Running is never
later overwritten to Success or Failed by the background runner.  The code
violates this: `_run_playbook` resumes after `process.communicate()` and
assigns Success/Failed unconditionally, so the interleaving
dispatch → cancel → process-exit(0) moves the record from the terminal
Cancelled state to Success. -/
theorem C1_cancelled_overwritten_to_success :
    (runTrace (mkPending "e1" "collect_diagnostics" "alice" 0)
        [.dispatch, .cancelAt 5]).status = .cancelled ∧
    ((runTrace (mkPending "e1" "collect_diagnostics" "alice" 0)
        [.dispatch, .cancelAt 5]).status.isTerminal = true) ∧
    (runTrace (mkPending "e1" "collect_diagnostics" "alice" 0)
        [.dispatch, .cancelAt 5, .procExit 0 "PLAY RECAP: ok" "" 9]).status = .success := by
  refine ⟨rfl, rfl, rfl⟩

/-- C2.  A successful `execute_playbook` records the new Execution with
status Pending in the shared table before returning, so a subsequent
`get_execution` for that id observes it — and no later dict write can make
the id unobservable. -/
theorem C2_submit_records_pending (catalog : List String) (m : ExecMap)
    (execution_id : String) (req : ExecRequest) (executed_by : String) (now : Nat)
    (e : Execution) (m' : ExecMap)
    (h : execute_playbook catalog m execution_id req executed_by now = some (e, m')) :
    get_execution m' execution_id = some e ∧ e.status = .pending ∧
    ∀ (k : String) (v : Execution),
      (get_execution (dictSet m' k v) execution_id).isSome := by
  unfold execute_playbook at h
  by_cases hc : req.playbook_id ∈ catalog
  · simp only [hc, if_pos, Option.some.injEq, Prod.mk.injEq] at h
    obtain ⟨he, hm⟩ := h
    subst hm
    refine ⟨?_, ?_, ?_⟩
    · rw [← he]; exact get_execution_dictSet m execution_id _
    · rw [← he]
    · intro k v
      exact get_execution_dictSet_isSome _ k execution_id v
        (by rw [get_execution_dictSet]; rfl)
  · simp [hc] at h

/-- Closed instance of `C2_submit_records_pending`: submitting
`collect_diagnostics` against an empty table makes the id immediately
readable with status Pending. -/
theorem C2_submit_records_pending_witness :
    get_execution [("id1", mkPending "id1" "collect_diagnostics" "alice" 3)] "id1" =
      some (mkPending "id1" "collect_diagnostics" "alice" 3) ∧
    (mkPending "id1" "collect_diagnostics" "alice" 3).status = .pending := by
  have h := C2_submit_records_pending ["collect_diagnostics"] [] "id1"
    { playbook_id := "collect_diagnostics" } "alice" 3
    (mkPending "id1" "collect_diagnostics" "alice" 3)
    [("id1", mkPending "id1" "collect_diagnostics" "alice" 3)] (by rfl)
  exact ⟨h.1, h.2.1⟩

/-- C3.  `cancel_execution` returns true iff the execution exists and is
currently Running; in that case the stored record becomes Cancelled with
`completed_at` populated, and in every other case (Pending, terminal, or
unknown id) it returns false and leaves the table unchanged. -/
theorem C3_cancel_only_running (m : ExecMap) (eid : String) (now : Nat) :
    ((cancel_execution m eid now).1 = true ↔
      ∃ e, get_execution m eid = some e ∧ e.status = .running) ∧
    (∀ e, get_execution m eid = some e → e.status = .running →
      (cancel_execution m eid now).2 =
          dictSet m eid { e with status := .cancelled, completed_at := some now } ∧
      get_execution (cancel_execution m eid now).2 eid =
          some { e with status := .cancelled, completed_at := some now }) ∧
    ((cancel_execution m eid now).1 = false → (cancel_execution m eid now).2 = m) := by
  cases hg : get_execution m eid with
  | none =>
    have hc : cancel_execution m eid now = (false, m) := by
      simp [cancel_execution, hg]
    refine ⟨?_, ?_, ?_⟩
    · rw [hc]
      constructor
      · intro h; exact absurd h (by simp)
      · rintro ⟨e', he', -⟩; exact Option.noConfusion he'
    · intro e' he' _; exact Option.noConfusion he'
    · intro _; rw [hc]
  | some e =>
    by_cases hs : e.status = .running
    · have hc : cancel_execution m eid now =
          (true, dictSet m eid { e with status := .cancelled, completed_at := some now }) := by
        simp [cancel_execution, hg, hs]
      refine ⟨?_, ?_, ?_⟩
      · rw [hc]
        exact ⟨fun _ => ⟨e, rfl, hs⟩, fun _ => rfl⟩
      · intro e' he' _
        injection he' with he''
        subst he''
        rw [hc]
        exact ⟨rfl, get_execution_dictSet m eid _⟩
      · intro hfalse
        rw [hc] at hfalse
        exact absurd hfalse (by simp)
    · have hc : cancel_execution m eid now = (false, m) := by
        simp [cancel_execution, hg, hs]
      refine ⟨?_, ?_, ?_⟩
      · rw [hc]
        constructor
        · intro h; exact absurd h (by simp)
        · rintro ⟨e', he', hr⟩
          injection he' with he''
          subst he''
          exact absurd hr hs
      · intro e' he' hr
        injection he' with he''
        subst he''
        exact absurd hr hs
      · intro _; rw [hc]

/-- Closed instance of `C3_cancel_only_running`: cancelling a Running
execution flips it to Cancelled and stamps `completed_at`. -/
theorem C3_cancel_only_running_witness :
    (cancel_execution
        [("e1", { mkPending "e1" "restart_application" "bob" 0 with status := .running })]
        "e1" 7).2 =
      dictSet
        [("e1", { mkPending "e1" "restart_application" "bob" 0 with status := .running })]
        "e1"
        { mkPending "e1" "restart_application" "bob" 0 with
            status := .cancelled, completed_at := some 7 } ∧
    get_execution
        (cancel_execution
          [("e1", { mkPending "e1" "restart_application" "bob" 0 with status := .running })]
          "e1" 7).2 "e1" =
      some { mkPending "e1" "restart_application" "bob" 0 with
              status := .cancelled, completed_at := some 7 } := by
  have h := (C3_cancel_only_running
    [("e1", { mkPending "e1" "restart_application" "bob" 0 with status := .running })]
    "e1" 7).2.1
    { mkPending "e1" "restart_application" "bob" 0 with status := .running }
    (by rfl) rfl
  exact h

/-- C4 (counterexample).  The claim says two `detect` calls on an unchanged
snapshot yield byte-identical output, with no hidden state such as clocks
influencing the result.  But `analyze_transactions` embeds
`datetime.utcnow().isoformat()` in its returned JSON (line 180), so two
calls at different instants differ in the `timestamp` field even on an
unchanged snapshot. -/
theorem C4_output_depends_on_clock :
    analyze_transactions {} {} "2024-01-01T00:00:00" ≠
      analyze_transactions {} {} "2024-01-01T00:00:01" := by
  intro h
  have := congrArg AnalyzeOutput.timestamp h
  simp [analyze_transactions] at this

/-- C4 (amended).  `detect` is deterministic in the snapshot and thresholds:
the anomaly list and the anomaly count are identical across repeated calls
on an unchanged snapshot; only the top-level `timestamp` field varies with
the wall clock. -/
theorem C4_anomalies_clock_independent (th : Thresholds) (s : Snapshot)
    (t₁ t₂ : String) :
    (analyze_transactions th s t₁).anomalies = (analyze_transactions th s t₂).anomalies ∧
    (analyze_transactions th s t₁).total_anomalies =
      (analyze_transactions th s t₂).total_anomalies := ⟨rfl, rfl⟩

/-- The `type` tag of an anomaly record. -/
def anomTypeTag (a : Anom) : Option JVal := a.lookup "type"

/-- C5.  For a transaction carrying a latency reading (and whose recorded
error is not itself the tag `high_latency`, so the failure rule cannot
shadow the latency rule's tag), the per-transaction detection output
contains a `high_latency` record iff `latency_ms > latency_threshold_ms`,
with severity `critical` iff latency ≥ 5000 and `warning` otherwise; and
concretely, scenario A: a lone transaction `latency_ms = 6000`,
`status = "success"` yields exactly one anomaly record, of type
`high_latency` and severity `critical`. -/
theorem C5_high_latency_rule (th : Thresholds) (txn : Txn) (l : Int)
    (hl : txn.latency_ms = some l) (he : txn.error ≠ some "high_latency") :
    ((txnAnomalies th txn).filter (fun a => anomTypeTag a == some (.jstr "high_latency")) =
      if th.latency_ms < l then
        [[("type", .jstr "high_latency"),
          ("severity", .jstr (if l < 5000 then "warning" else "critical")),
          ("transaction_id", .jstr txn.id),
          ("latency_ms", .jint l),
          ("service", .jstr (txn.service.getD "unknown")),
          ("region", .jstr (txn.region.getD "unknown"))]]
      else []) ∧
    analyze_transactions {}
        { transactions := [{ id := "tx-1", latency_ms := some 6000, status := some "success" }] }
        "2024-01-01T00:00:00" =
      { total_anomalies := 1,
        anomalies :=
          [[("type", .jstr "high_latency"), ("severity", .jstr "critical"),
            ("transaction_id", .jstr "tx-1"), ("latency_ms", .jint 6000),
            ("service", .jstr "unknown"), ("region", .jstr "unknown")]],
        timestamp := "2024-01-01T00:00:00" } := by
  constructor
  · have hfail : anomTypeTag (failureAnom txn) ≠ some (.jstr "high_latency") := by
      cases herr : txn.error with
      | none => simp [anomTypeTag, failureAnom, herr, List.lookup]
      | some s =>
        simp [anomTypeTag, failureAnom, herr, List.lookup]
        intro hs
        exact he (by rw [herr, hs])
    have hhash : anomTypeTag (hashAnom txn) ≠ some (.jstr "high_latency") := by
      simp [anomTypeTag, hashAnom, List.lookup]
    unfold txnAnomalies
    rw [List.filter_append, List.filter_append]
    have h2 : (if txn.status = some "failed" then [failureAnom txn] else []).filter
        (fun a => anomTypeTag a == some (.jstr "high_latency")) = [] := by
      split
      · simp [hfail]
      · rfl
    have h3 : (if txn.error = some "hash_mismatch" then [hashAnom txn] else []).filter
        (fun a => anomTypeTag a == some (.jstr "high_latency")) = [] := by
      split
      · simp [hhash]
      · rfl
    rw [h2, h3, List.append_nil, List.append_nil]
    rw [hl]
    simp only [Option.getD_some]
    by_cases hcond : th.latency_ms < l
    · rw [if_pos hcond, if_pos hcond]
      simp [latencyAnom, anomTypeTag, List.lookup, hl]
    · rw [if_neg hcond, if_neg hcond]
      rfl
  · rfl

/-- Closed instance of `C5_high_latency_rule` at the scenario-A
transaction. -/
theorem C5_high_latency_rule_witness :
    (txnAnomalies {}
        { id := "tx-1", latency_ms := some 6000, status := some "success" }).filter
        (fun a => anomTypeTag a == some (.jstr "high_latency")) =
      [[("type", .jstr "high_latency"), ("severity", .jstr "critical"),
        ("transaction_id", .jstr "tx-1"), ("latency_ms", .jint 6000),
        ("service", .jstr "unknown"), ("region", .jstr "unknown")]] := by
  have h := (C5_high_latency_rule {}
    { id := "tx-1", latency_ms := some 6000, status := some "success" } 6000 rfl
    (by simp)).1
  simpa using h

/-- C6.  The network check forms the error rate only under the
`total_requests > 0` guard (a zero denominator yields no anomaly and no
division), and under that guard emits exactly one `high_error_rate` record
iff `error_rate > error_rate_threshold`, with severity `critical` iff
`error_rate > 0.10` and `warning` otherwise; concretely, scenario C:
counters (900, 0, 150) give rate 1/7 ≈ 0.1429 > 0.10, hence a single
critical record. -/
theorem C6_high_error_rate_rule (th : Thresholds) (l7 : Layer7) :
    (networkAnomalies th l7 =
      if 0 < l7.http_2xx + l7.http_4xx + l7.http_5xx ∧
          th.error_rate <
            (l7.http_5xx : ℚ) / ((l7.http_2xx + l7.http_4xx + l7.http_5xx : Nat) : ℚ) then
        [[("type", .jstr "high_error_rate"),
          ("severity", .jstr
            (if 1 / 10 <
                (l7.http_5xx : ℚ) / ((l7.http_2xx + l7.http_4xx + l7.http_5xx : Nat) : ℚ)
              then "critical" else "warning")),
          ("error_rate", .jrat (round2
            ((l7.http_5xx : ℚ) / ((l7.http_2xx + l7.http_4xx + l7.http_5xx : Nat) : ℚ) * 100))),
          ("http_5xx", .jint l7.http_5xx)]]
      else []) ∧
    networkAnomalies {} { http_2xx := 900, http_4xx := 0, http_5xx := 150 } =
      [[("type", .jstr "high_error_rate"), ("severity", .jstr "critical"),
        ("error_rate", .jrat (1429 / 100)), ("http_5xx", .jint 150)]] := by
  constructor
  · by_cases h1 : 0 < l7.http_2xx + l7.http_4xx + l7.http_5xx
    · by_cases h2 : th.error_rate <
          (l7.http_5xx : ℚ) / ((l7.http_2xx + l7.http_4xx + l7.http_5xx : Nat) : ℚ)
      · rw [if_pos ⟨h1, h2⟩]
        simp [networkAnomalies, netAnom, h1, h2]
        push_cast at h2
        exact h2
      · rw [if_neg (by intro hc; exact h2 hc.2)]
        simp [networkAnomalies, h1, h2]
        push_cast at h2
        exact not_lt.mp h2
    · rw [if_neg (by intro hc; exact h1 hc.1)]
      simp [networkAnomalies, h1]
  · have hr : round ((10000 : ℚ) / 7) = 1429 := by
      norm_num [round_eq]
    norm_num [networkAnomalies, netAnom, round2, hr]

/-- C9.  `consult_llm` extracts the slice from the first opening brace to
the last closing brace and parses it: when no such pair exists the raw
reply is returned as the fallback dict, when the slice fails to parse the
raw reply is likewise returned (never an error), and when it parses the
plan object is returned with `source`/`model` appended. -/
theorem C9_consult_extraction
    (parseJson : String → Option (List (String × JVal))) (resp : String) :
    (¬ (pyFind resp '\x7b' ≠ -1 ∧ pyFind resp '\x7b' < pyRFind resp '\x7d' + 1) →
        consult_llm parseJson resp = .rawResponse resp) ∧
    (pyFind resp '\x7b' ≠ -1 → pyFind resp '\x7b' < pyRFind resp '\x7d' + 1 →
        parseJson (pySlice resp (pyFind resp '\x7b').toNat
          (pyRFind resp '\x7d' + 1).toNat) = none →
        consult_llm parseJson resp = .rawResponse resp) ∧
    (∀ plan, pyFind resp '\x7b' ≠ -1 → pyFind resp '\x7b' < pyRFind resp '\x7d' + 1 →
        parseJson (pySlice resp (pyFind resp '\x7b').toNat
          (pyRFind resp '\x7d' + 1).toNat) = some plan →
        consult_llm parseJson resp =
          .parsed (plan ++ [("source", .jstr "llm_generated"),
                            ("model", .jstr modelName)])) := by
  refine ⟨?_, ?_, ?_⟩
  · intro h
    simp only [consult_llm]
    rw [if_neg h]
  · intro h1 h2 hp
    simp only [consult_llm]
    rw [if_pos ⟨h1, h2⟩, hp]
  · intro plan h1 h2 hp
    simp only [consult_llm]
    rw [if_pos ⟨h1, h2⟩, hp]

/-- Closed instance of `C9_consult_extraction`, scenario D: a reply with
no brace pair at all yields the raw-response fallback, not an error. -/
theorem C9_consult_extraction_witness :
    consult_llm (fun _ => none) "I cannot provide a structured plan." =
      .rawResponse "I cannot provide a structured plan." :=
  (C9_consult_extraction (fun _ => none) "I cannot provide a structured plan.").1
    (by decide)

/-- The transaction of the C10 scenario: failed with a recorded
`hash_mismatch` error. -/
def hashMismatchTxn : Txn :=
  { id := "tx-9", status := some "failed", error := some "hash_mismatch",
    expected_hash := some "abc123", hash := some "def456" }

/-- C10.  A failed transaction whose error is `hash_mismatch` contributes
two distinct records: the failure record (type taken from the error field,
severity high or critical) followed by the dedicated hash-mismatch record
(severity critical, carrying expected/actual hashes). -/
theorem C10_failed_hash_mismatch_double (th : Thresholds) (txn : Txn)
    (hs : txn.status = some "failed") (he : txn.error = some "hash_mismatch") :
    txnAnomalies th txn =
      (if th.latency_ms < txn.latency_ms.getD 0 then [latencyAnom txn] else [])
        ++ [failureAnom txn, hashAnom txn] ∧
    anomTypeTag (failureAnom txn) = some (.jstr "hash_mismatch") ∧
    ((failureAnom txn).lookup "severity" = some (.jstr "critical") ∨
      (failureAnom txn).lookup "severity" = some (.jstr "high")) ∧
    (hashAnom txn).lookup "severity" = some (.jstr "critical") ∧
    (hashAnom txn).lookup "expected_hash" = some (jOptStr txn.expected_hash) ∧
    (hashAnom txn).lookup "actual_hash" = some (jOptStr txn.hash) ∧
    failureAnom txn ≠ hashAnom txn := by
  refine ⟨?_, ?_, ?_, rfl, rfl, rfl, ?_⟩
  · simp [txnAnomalies, hs, he]
  · simp [anomTypeTag, failureAnom, he, List.lookup]
  · cases hA : optStrTruthy txn.anomaly_type
    · right; simp [failureAnom, hA, List.lookup]
    · left; simp [failureAnom, hA, List.lookup]
  · intro hcontra
    have hlen := congrArg List.length hcontra
    simp [failureAnom, hashAnom] at hlen

/-- Closed instance of `C10_failed_hash_mismatch_double` at a concrete
failed transaction. -/
theorem C10_failed_hash_mismatch_double_witness :
    txnAnomalies {} hashMismatchTxn = [failureAnom hashMismatchTxn, hashAnom hashMismatchTxn] ∧
    failureAnom hashMismatchTxn ≠ hashAnom hashMismatchTxn := by
  have h := C10_failed_hash_mismatch_double {} hashMismatchTxn rfl rfl
  refine ⟨?_, h.2.2.2.2.2.2⟩
  have h1 := h.1
  norm_num [hashMismatchTxn] at h1
  exact h1

/-- C7.  The claim says any malformed learned file — unparseable or not of
the expected record shape — is skipped and never aborts the search.  The
code only skips `yaml.YAMLError`: a file that parses to well-formed YAML
of the wrong shape (here a top-level list) makes the scan call `.get` on a
non-dict and raises `AttributeError`, aborting the whole search; an
unparseable file is indeed skipped. -/
theorem C7_malformed_shape_aborts_search :
    search_playbooks (fun _ => false)
        [⟨"weird_shape", .ok (.pylist [.pystr "oops"])⟩] "high_cpu" =
      .error .attributeError ∧
    search_playbooks (fun _ => false) [⟨"broken_yaml", .error ()⟩] "high_cpu" =
      .ok ⟨"high_cpu", [], false⟩ := ⟨rfl, rfl⟩

/-- The Oracle plan used for the C8 round-trip. -/
def oraclePlan : RemPlan :=
  { root_cause := some "cpu_overload", requires_approval := some true,
    remediation_steps :=
      [{ step := some 1, action := some "Check load", command := some "uptime",
         is_destructive := some false },
       { step := some 2, action := some "Restart app service",
         command := some "systemctl restart app", is_destructive := some true }] }

/-- C8.  The claim says persist-then-search with an exact member of the
persisted `target_anomaly_types` returns found=true with a Learned
candidate of confidence 0.8 and the plan's step count.  The code cannot
deliver this: `save_learned_playbook` serializes the playbook as a
top-level YAML list, and `search_playbooks` then calls `.get` on the
loaded (list) document, raising `AttributeError` — the search aborts
instead of finding the learned descriptor. -/
theorem C8_persist_then_search_aborts :
    (save_learned_playbook [] "cpu_overload_fix" oraclePlan "2024-01-01T00:00:00").2 = 2 ∧
    search_playbooks (fun _ => false)
        (save_learned_playbook [] "cpu_overload_fix" oraclePlan "2024-01-01T00:00:00").1
        "cpu_overload" =
      .error .attributeError := ⟨rfl, rfl⟩
